import Mathlib

/-!
Verification development for the media-organizer pipeline.

Shallow embedding of the Python sources:
  `config_loader.py`, `filename_parser.py`, `decision_engine.py`,
  `executor.py`, `database.py`, `scanner.py`, `tmdb_matcher.py`.

Python strings are Lean `String`/`List Char`; machine time stamps are `Nat`;
fallible external calls are modelled by explicit outcome oracles; the SQLite
tables are modelled as lists of rows.  Each definition mirrors the source
function named in its doc comment.
-/

namespace MediaOrganizer

/-! ## String helpers (Python `str.lower`, `str.upper`, substring search) -/

/-- Python `str.lower()` on ASCII data (the quality tokens are ASCII). -/
def lowerStr (s : List Char) : List Char := s.map Char.toLower

/-- Python `str.upper()` on ASCII data. -/
def upperStr (s : String) : String := String.mk (s.data.map Char.toUpper)

/-- Substring containment: `pat in s` (Python), `re.search` of a literal. -/
def containsTok (s : List Char) (pat : String) : Bool :=
  match s with
  | [] => pat.data.isEmpty
  | _ :: rest => pat.data.isPrefixOf s || containsTok rest pat

/-! ## `config_loader.py` — `Config` quality-ladder operations -/

/-- The slice of `Config` relevant to quality decisions:
`quality_priority` (lowest to highest), `auto_replace_quality`, and
`cam_replacement_threshold` (`config_loader.py`). -/
structure Config where
  quality_priority : List String
  auto_replace_quality : Bool
  cam_replacement_threshold : String

/-- The default quality ladder from `Config.quality_priority`. -/
def defaultQualityPriority : List String :=
  ["CAM", "HDTS", "HDTC", "720p", "1080p", "2160p", "4K"]

/-- Python `list.index`, returning the first index of `x`, as an option. -/
def idxOf? (x : String) : List String → Option Nat
  | [] => none
  | y :: ys => if y = x then some 0 else (idxOf? x ys).map (· + 1)

/-- `Config.get_quality_index` (`config_loader.py` lines 174-182):
uppercase both the query and the ladder, take the first index, `-1` when
the quality is absent from the ladder. -/
def Config.get_quality_index (cfg : Config) (quality : String) : Int :=
  match idxOf? (upperStr quality) (cfg.quality_priority.map upperStr) with
  | some i => (i : Int)
  | none => -1

/-- `Config.is_quality_better` (`config_loader.py` lines 184-188). -/
def Config.is_quality_better (cfg : Config) (new_quality existing_quality : String) : Bool :=
  cfg.get_quality_index new_quality > cfg.get_quality_index existing_quality

/-- `Config.should_replace_cam` (`config_loader.py` lines 190-194). -/
def Config.should_replace_cam (cfg : Config) (new_quality : String) : Bool :=
  cfg.get_quality_index new_quality ≥ cfg.get_quality_index cfg.cam_replacement_threshold

/-! ## `database.py` — quality tracking rows -/

/-- A `quality_tracking` row as read back by `Database.get_existing_quality`
(`database.py`): the fields the decision engine consumes. -/
structure QualityRecord where
  quality : String
  file_path : String
  remote : String

/-! ## `decision_engine.py` — `_check_quality_replacement` -/

/-- `DecisionEngine._check_quality_replacement` (`decision_engine.py`
lines 503-555), with the `Database.get_existing_quality` lookup result
passed in as `existing`.  Returns `(action, file_to_delete, delete_remote)`. -/
def check_quality_replacement (cfg : Config) (existing : Option QualityRecord)
    (new_quality : String) : String × Option String × Option String :=
  if !cfg.auto_replace_quality then ("move", none, none)
  else
    match existing with
    | none => ("move", none, none)
    | some ex =>
      if cfg.is_quality_better new_quality ex.quality then
        if upperStr ex.quality = "CAM" then
          if cfg.should_replace_cam new_quality then
            ("replace", some ex.file_path, some ex.remote)
          else
            ("skip", none, none)
        else
          ("replace", some ex.file_path, some ex.remote)
      else if new_quality = ex.quality then
        ("skip", none, none)
      else
        ("skip", none, none)

/-! ## Lemmas about ladder index lookup -/

theorem idxOf?_isSome_of_mem {x : String} {l : List String} (h : x ∈ l) :
    ∃ n, idxOf? x l = some n := by
  induction l with
  | nil => cases h
  | cons y ys ih =>
    by_cases hxy : y = x
    · exact ⟨0, by simp [idxOf?, hxy]⟩
    · have hx : x ∈ ys := by
        rcases List.mem_cons.mp h with rfl | h'
        · exact absurd rfl hxy
        · exact h'
      rcases ih hx with ⟨n, hn⟩
      exact ⟨n + 1, by simp [idxOf?, hxy, hn]⟩

theorem idxOf?_some_inj {x y : String} {l : List String} {n : Nat}
    (hx : idxOf? x l = some n) (hy : idxOf? y l = some n) : x = y := by
  induction l generalizing n with
  | nil => simp [idxOf?] at hx
  | cons z zs ih =>
    by_cases hzx : z = x
    · have hn0 : n = 0 := by
        simp [idxOf?, hzx] at hx
        omega
      subst hn0
      by_cases hzy : z = y
      · rw [← hzx, hzy]
      · simp [idxOf?, hzy] at hy
    · simp [idxOf?, hzx] at hx
      rcases hx with ⟨m, hm, hmn⟩
      by_cases hzy : z = y
      · simp [idxOf?, hzy] at hy
        omega
      · simp [idxOf?, hzy] at hy
        rcases hy with ⟨m', hm', hmn'⟩
        have : m = m' := by omega
        exact ih hm (this ▸ hm')

theorem idxOf?_eq_none_of_not_mem {x : String} {l : List String} (h : x ∉ l) :
    idxOf? x l = none := by
  induction l with
  | nil => rfl
  | cons y ys ih =>
    have hyx : ¬ y = x := fun e => h (e ▸ List.mem_cons_self y ys)
    simp [idxOf?, hyx, ih (fun hx => h (List.mem_cons_of_mem y hx))]

theorem get_quality_index_nonneg_of_mem (cfg : Config) {q : String}
    (h : q ∈ cfg.quality_priority) : 0 ≤ cfg.get_quality_index q := by
  have hm : upperStr q ∈ cfg.quality_priority.map upperStr := List.mem_map_of_mem _ h
  rcases idxOf?_isSome_of_mem hm with ⟨n, hn⟩
  simp [Config.get_quality_index, hn]

theorem get_quality_index_neg_of_absent (cfg : Config) {q : String}
    (h : upperStr q ∉ cfg.quality_priority.map upperStr) :
    cfg.get_quality_index q = -1 := by
  simp [Config.get_quality_index, idxOf?_eq_none_of_not_mem h]

theorem is_quality_better_self (cfg : Config) (q : String) :
    cfg.is_quality_better q q = false := by
  simp [Config.is_quality_better]

/-- **C2.** Replacement sub-decision (with auto-replace enabled):
no record → `move`; strictly better quality → `replace` carrying the
existing file's path and remote, except an existing `CAM` record is
replaced only when the new quality's ladder rank reaches the configured
CAM threshold (otherwise `skip`); equal quality → `skip`; worse → `skip`;
a quality absent from the ladder ranks below every ladder member. -/
theorem C2_replacement_decision (cfg : Config) (existing : Option QualityRecord)
    (newq : String) (hauto : cfg.auto_replace_quality = true) :
    (existing = none → check_quality_replacement cfg existing newq = ("move", none, none)) ∧
    (∀ ex, existing = some ex →
      (cfg.is_quality_better newq ex.quality = true → upperStr ex.quality ≠ "CAM" →
        check_quality_replacement cfg existing newq =
          ("replace", some ex.file_path, some ex.remote)) ∧
      (cfg.is_quality_better newq ex.quality = true → upperStr ex.quality = "CAM" →
        cfg.get_quality_index newq ≥ cfg.get_quality_index cfg.cam_replacement_threshold →
        check_quality_replacement cfg existing newq =
          ("replace", some ex.file_path, some ex.remote)) ∧
      (cfg.is_quality_better newq ex.quality = true → upperStr ex.quality = "CAM" →
        cfg.get_quality_index newq < cfg.get_quality_index cfg.cam_replacement_threshold →
        check_quality_replacement cfg existing newq = ("skip", none, none)) ∧
      (newq = ex.quality →
        check_quality_replacement cfg existing newq = ("skip", none, none)) ∧
      (cfg.is_quality_better newq ex.quality = false →
        check_quality_replacement cfg existing newq = ("skip", none, none))) ∧
    (∀ q m, upperStr q ∉ cfg.quality_priority.map upperStr → m ∈ cfg.quality_priority →
      cfg.is_quality_better m q = true) := by
  refine ⟨?_, ?_, ?_⟩
  · rintro rfl
    simp [check_quality_replacement, hauto]
  · rintro ex rfl
    refine ⟨?_, ?_, ?_, ?_, ?_⟩
    · intro hbet hcam
      simp [check_quality_replacement, hauto, hbet, hcam]
    · intro hbet hcam hthr
      simp [check_quality_replacement, Config.should_replace_cam, hauto, hbet, hcam, hthr]
    · intro hbet hcam hthr
      simp [check_quality_replacement, Config.should_replace_cam, hauto, hbet, hcam,
        not_le.mpr hthr]
    · rintro rfl
      simp [check_quality_replacement, hauto, is_quality_better_self]
    · intro hbet
      by_cases heq : newq = ex.quality
      · subst heq
        simp [check_quality_replacement, hauto, is_quality_better_self]
      · simp [check_quality_replacement, hauto, hbet, heq]
  · intro q m habs hm
    have h1 : cfg.get_quality_index q = -1 := get_quality_index_neg_of_absent cfg habs
    have h2 : 0 ≤ cfg.get_quality_index m := get_quality_index_nonneg_of_mem cfg hm
    simp only [Config.is_quality_better, h1]
    exact decide_eq_true (by omega)

/-- Witness for C2: the spec's own scenario — existing record `CAM`, new
quality `720p`, CAM threshold `720p` → `replace`; with threshold `1080p`
→ `skip`. -/
theorem C2_replacement_decision_witness :
    check_quality_replacement
      ⟨defaultQualityPriority, true, "720p"⟩
      (some ⟨"CAM", "Movies/Old/old.mkv", "gdrive"⟩) "720p" =
      ("replace", some "Movies/Old/old.mkv", some "gdrive") ∧
    check_quality_replacement
      ⟨defaultQualityPriority, true, "1080p"⟩
      (some ⟨"CAM", "Movies/Old/old.mkv", "gdrive"⟩) "720p" =
      ("skip", none, none) := by
  constructor
  · exact (((C2_replacement_decision ⟨defaultQualityPriority, true, "720p"⟩
      (some ⟨"CAM", "Movies/Old/old.mkv", "gdrive"⟩) "720p" rfl).2.1
      ⟨"CAM", "Movies/Old/old.mkv", "gdrive"⟩ rfl).2.1 (by decide) (by decide) (by decide))
  · exact (((C2_replacement_decision ⟨defaultQualityPriority, true, "1080p"⟩
      (some ⟨"CAM", "Movies/Old/old.mkv", "gdrive"⟩) "720p" rfl).2.1
      ⟨"CAM", "Movies/Old/old.mkv", "gdrive"⟩ rfl).2.2.1 (by decide) (by decide) (by decide))

/-- **C9.** Trichotomy of the quality comparison on the configured ladder:
for labels `A`, `B` in the ladder (whose uppercased entries are distinct,
as `Config.get_quality_index` compares case-insensitively), exactly one of
`is_quality_better A B`, `is_quality_better B A`, `A = B` holds. -/
theorem C9_quality_trichotomy (cfg : Config) (A B : String)
    (hA : A ∈ cfg.quality_priority) (hB : B ∈ cfg.quality_priority)
    (hnd : (cfg.quality_priority.map upperStr).Nodup) :
    (cfg.is_quality_better A B = true ∧ cfg.is_quality_better B A = false ∧ A ≠ B) ∨
    (cfg.is_quality_better B A = true ∧ cfg.is_quality_better A B = false ∧ A ≠ B) ∨
    (A = B ∧ cfg.is_quality_better A B = false ∧ cfg.is_quality_better B A = false) := by
  rcases idxOf?_isSome_of_mem (List.mem_map_of_mem upperStr hA) with ⟨a, ha⟩
  rcases idxOf?_isSome_of_mem (List.mem_map_of_mem upperStr hB) with ⟨b, hb⟩
  have hia : cfg.get_quality_index A = (a : Int) := by simp [Config.get_quality_index, ha]
  have hib : cfg.get_quality_index B = (b : Int) := by simp [Config.get_quality_index, hb]
  rcases Nat.lt_trichotomy a b with hab | hab | hab
  · refine Or.inr (Or.inl ⟨?_, ?_, ?_⟩)
    · simp only [Config.is_quality_better, hia, hib]
      exact decide_eq_true (by exact_mod_cast hab)
    · simp only [Config.is_quality_better, hia, hib]
      exact decide_eq_false (by omega)
    · rintro rfl
      rw [ha] at hb
      simp only [Option.some.injEq] at hb
      omega
  · have hup : upperStr A = upperStr B := idxOf?_some_inj ha (hab ▸ hb)
    have hAB : A = B :=
      List.inj_on_of_nodup_map hnd hA hB hup
    refine Or.inr (Or.inr ⟨hAB, ?_, ?_⟩) <;>
      · simp only [Config.is_quality_better, hia, hib]
        exact decide_eq_false (by omega)
  · refine Or.inl ⟨?_, ?_, ?_⟩
    · simp only [Config.is_quality_better, hia, hib]
      exact decide_eq_true (by exact_mod_cast hab)
    · simp only [Config.is_quality_better, hia, hib]
      exact decide_eq_false (by omega)
    · rintro rfl
      rw [ha] at hb
      simp only [Option.some.injEq] at hb
      omega

/-- Witness for C9 on the default ladder: `1080p` vs `720p`. -/
theorem C9_quality_trichotomy_witness :
    (Config.is_quality_better ⟨defaultQualityPriority, true, "720p"⟩ "1080p" "720p" = true ∧
     Config.is_quality_better ⟨defaultQualityPriority, true, "720p"⟩ "720p" "1080p" = false ∧
     "1080p" ≠ "720p") ∨
    (Config.is_quality_better ⟨defaultQualityPriority, true, "720p"⟩ "720p" "1080p" = true ∧
     Config.is_quality_better ⟨defaultQualityPriority, true, "720p"⟩ "1080p" "720p" = false ∧
     "1080p" ≠ "720p") ∨
    ("1080p" = "720p" ∧
     Config.is_quality_better ⟨defaultQualityPriority, true, "720p"⟩ "1080p" "720p" = false ∧
     Config.is_quality_better ⟨defaultQualityPriority, true, "720p"⟩ "720p" "1080p" = false) :=
  C9_quality_trichotomy ⟨defaultQualityPriority, true, "720p"⟩ "1080p" "720p"
    (by decide) (by decide) (by decide)

/-! ## `executor.py` — `Executor._execute_replace` -/

/-- Python truthiness of an optional string (`None` and `""` are falsy). -/
def pyTruthy : Option String → Bool
  | none => false
  | some s => !(s = "")

/-- One rclone call issued by the executor during a replace. -/
inductive RCall where
  | move
  | existsCheck
  | delete
  deriving DecidableEq, Repr

/-- Outcomes the file-transfer collaborator can produce during a replace:
whether `move_file` succeeds, what `file_exists` returns (`Except` models a
raised `RcloneError`), and whether `delete_file` succeeds. -/
structure ReplaceWorld where
  moveOk : Bool
  existsResult : Except Unit Bool
  deleteOk : Bool

/-- The fields of a `MoveDecision` that `_execute_replace` branches on. -/
structure ReplaceDecision where
  file_to_delete : Option String
  delete_remote : Option String

/-- What a replace execution produced: the `ExecutionResult.success` flag,
the rclone calls issued in order, and the ledger statuses written through
`Database.add_processed_file`. -/
structure ReplaceOutcome where
  success : Bool
  calls : List RCall
  recorded : List String
  deriving DecidableEq, Repr

/-- `Executor._execute_replace` (`executor.py` lines 124-187).
Step 1 moves the new file; on `RcloneError` it records status `failed` and
returns without any further call.  Step 2 verifies the destination; a
`false` answer records `failed` and aborts, a raised error is tolerated.
Step 3 deletes the old file (only when both delete fields are truthy);
delete failure is logged only.  Finally status `success` is recorded. -/
def execute_replace (dry_run : Bool) (w : ReplaceWorld) (d : ReplaceDecision) :
    ReplaceOutcome :=
  if dry_run then ⟨true, [], []⟩
  else if !w.moveOk then
    ⟨false, [RCall.move], ["failed"]⟩
  else
    match w.existsResult with
    | Except.ok false => ⟨false, [RCall.move, RCall.existsCheck], ["failed"]⟩
    | _ =>
      if pyTruthy d.file_to_delete && pyTruthy d.delete_remote then
        ⟨true, [RCall.move, RCall.existsCheck, RCall.delete], ["success"]⟩
      else
        ⟨true, [RCall.move, RCall.existsCheck], ["success"]⟩

/-- **C1.** A replace never issues the delete call unless the move reported
success, and a failed move aborts immediately with no delete, the old file
untouched, and status `failed` recorded. -/
theorem C1_replace_never_deletes_on_move_failure
    (dry_run : Bool) (w : ReplaceWorld) (d : ReplaceDecision) :
    (RCall.delete ∈ (execute_replace dry_run w d).calls → w.moveOk = true) ∧
    (dry_run = false → w.moveOk = false →
      execute_replace dry_run w d = ⟨false, [RCall.move], ["failed"]⟩) := by
  constructor
  · intro hdel
    by_contra hmv
    have hmv' : w.moveOk = false := by
      cases hw : w.moveOk
      · rfl
      · exact absurd hw hmv
    by_cases hdr : dry_run = true
    · simp [execute_replace, hdr] at hdel
    · have hdr' : dry_run = false := by
        cases dry_run
        · rfl
        · exact absurd rfl hdr
      simp [execute_replace, hdr', hmv'] at hdel
  · intro hdr hmv
    simp [execute_replace, hdr, hmv]

/-- Witness for C1: simulated move failure — the delete call is absent,
the outcome is `failed`, success is `false`. -/
theorem C1_replace_never_deletes_on_move_failure_witness :
    execute_replace false
      ⟨false, Except.ok true, true⟩
      ⟨some "Movies/Old/old.mkv", some "gdrive"⟩ =
      ⟨false, [RCall.move], ["failed"]⟩ :=
  (C1_replace_never_deletes_on_move_failure false
    ⟨false, Except.ok true, true⟩ ⟨some "Movies/Old/old.mkv", some "gdrive"⟩).2 rfl rfl

/-! ## `tmdb_matcher.py` — `TMDBMatcher._request` and rate limiting -/

/-- One outcome of an outbound HTTP call to the catalog service, as
distinguished by `_request`'s exception handlers: success, timeout,
HTTP error with status (a 429 carries the optional `Retry-After` header),
or another `requests` exception. -/
inductive TMDBResponse where
  | ok
  | timeout
  | httpError (status : Nat) (retryAfter : Option Nat)
  | requestException
  deriving DecidableEq, Repr

/-- An observable step of `_request`: issuing one HTTP attempt, or sleeping
for a number of seconds. -/
inductive ReqEvent where
  | attempt
  | sleep (secs : Nat)
  deriving DecidableEq, Repr

/-- `TMDBMatcher._request` (`tmdb_matcher.py` lines 70-108) over a finite
stream of network outcomes (one entry consumed per attempt).  Returns the
events (attempts and sleeps, in order) and the final result: `ok` for a
JSON payload, `error` for a raised `TMDBError`.  On HTTP 429 it sleeps for
`Retry-After` (default 10) and re-invokes itself on the rest of the
stream; an exhausted stream is reported as an error. -/
def tmdb_request : List TMDBResponse → List ReqEvent × Except String Unit
  | [] => ([], Except.error "stream exhausted")
  | TMDBResponse.ok :: _ => ([ReqEvent.attempt], Except.ok ())
  | TMDBResponse.timeout :: _ => ([ReqEvent.attempt], Except.error "Request timed out")
  | TMDBResponse.httpError status retryAfter :: rest =>
    if status = 401 then ([ReqEvent.attempt], Except.error "Invalid TMDB API key")
    else if status = 429 then
      let next := tmdb_request rest
      (ReqEvent.attempt :: ReqEvent.sleep (retryAfter.getD 10) :: next.1, next.2)
    else ([ReqEvent.attempt], Except.error "HTTP error")
  | TMDBResponse.requestException :: _ => ([ReqEvent.attempt], Except.error "Request failed")

/-- Number of HTTP attempts in an event list. -/
def attemptCount (evs : List ReqEvent) : Nat :=
  evs.countP fun e => e = ReqEvent.attempt

/-- **C7.** Every request answered with HTTP 429 sleeps for the
server-specified `Retry-After` interval (default 10) and then retries the
request exactly once: the event trace is the failed attempt, the sleep,
then precisely the trace of one fresh request on the remaining stream, so
when the retry is not itself rate-limited the total is exactly two
attempts. -/
theorem C7_rate_limited_retry (retryAfter : Option Nat) (rest : List TMDBResponse) :
    (tmdb_request (TMDBResponse.httpError 429 retryAfter :: rest)).1 =
      ReqEvent.attempt :: ReqEvent.sleep (retryAfter.getD 10) ::
        (tmdb_request rest).1 ∧
    (tmdb_request (TMDBResponse.httpError 429 retryAfter :: rest)).2 =
      (tmdb_request rest).2 ∧
    attemptCount (tmdb_request (TMDBResponse.httpError 429 retryAfter :: rest)).1 =
      attemptCount (tmdb_request rest).1 + 1 ∧
    (∀ r rest', (∀ ra, r ≠ TMDBResponse.httpError 429 ra) → rest = r :: rest' →
      attemptCount (tmdb_request (TMDBResponse.httpError 429 retryAfter :: rest)).1 = 2) := by
  refine ⟨?_, ?_, ?_, ?_⟩
  · simp [tmdb_request]
  · simp [tmdb_request]
  · simp [tmdb_request, attemptCount]
  · rintro r rest' hr rfl
    cases r with
    | ok => simp [tmdb_request, attemptCount]
    | timeout => simp [tmdb_request, attemptCount]
    | httpError status ra =>
      by_cases h401 : status = 401
      · simp [tmdb_request, attemptCount, h401]
      · have h429 : ¬ status = 429 := by
          intro h
          exact hr ra (by rw [h])
        simp [tmdb_request, attemptCount, h401, h429]
    | requestException => simp [tmdb_request, attemptCount]

/-- Witness for C7: a 429 with `Retry-After: 3` followed by a success —
trace is attempt, sleep 3, attempt; two attempts in total. -/
theorem C7_rate_limited_retry_witness :
    (tmdb_request [TMDBResponse.httpError 429 (some 3), TMDBResponse.ok]).1 =
      [ReqEvent.attempt, ReqEvent.sleep 3, ReqEvent.attempt] ∧
    attemptCount (tmdb_request [TMDBResponse.httpError 429 (some 3), TMDBResponse.ok]).1 = 2 := by
  have h := C7_rate_limited_retry (some 3) [TMDBResponse.ok]
  refine ⟨?_, h.2.2.2 TMDBResponse.ok [] (fun ra => by simp) rfl⟩
  rw [h.1]
  rfl

/-! ## `tmdb_matcher.py` — `TMDBMatcher._search_with_title` -/

/-- The two catalog search endpoints (`/search/tv`, `/search/movie`). -/
inductive Endpoint where
  | tv
  | movie
  deriving DecidableEq, Repr

/-- A query issued to the catalog service: endpoint, title, year. -/
structure CatalogQuery where
  endpoint : Endpoint
  title : String
  year : Option Int
  deriving DecidableEq, Repr

/-- The per-result loop of `_search_with_title`: fold the confidence scores
of the top five candidates (the value `_calculate_match_confidence` returns
for each, supplied here by the search oracle), keeping the best, starting
from the best seen so far; updates only on strict improvement. -/
def foldBest (init : ℚ) (confidences : List ℚ) : ℚ :=
  (confidences.take 5).foldl (fun best c => if c > best then c else best) init

/-- `TMDBMatcher._search_with_title` (`tmdb_matcher.py` lines 235-296),
its endpoint-selection control flow: the search oracle gives the
confidence score each endpoint's candidates would receive.  TV is queried
first iff `is_series`; the movie endpoint is queried iff `not is_series or
best_confidence < 0.5`.  Returns the queries issued, in order, and the
final best confidence. -/
def search_with_title (title : String) (year : Option Int) (is_series : Bool)
    (tvConfidences movieConfidences : List ℚ) : List CatalogQuery × ℚ :=
  let bestAfterTv : ℚ := if is_series then foldBest 0 tvConfidences else 0
  let tvQueries : List CatalogQuery :=
    if is_series then [⟨Endpoint.tv, title, year⟩] else []
  if !is_series || bestAfterTv < 1/2 then
    (tvQueries ++ [⟨Endpoint.movie, title, year⟩], foldBest bestAfterTv movieConfidences)
  else
    (tvQueries, bestAfterTv)

/-- **Counterexample to C6 as stated.**  A movie-leaning input (not
series-leaning) whose movie search scores confidence 0 < 0.5: the claim
demands the other (series) endpoint also be queried, but the code issues
only the movie query. -/
theorem C6_counterexample :
    (search_with_title "Heat" none false [] [0]).2 < 1/2 ∧
    (search_with_title "Heat" none false [] [0]).1 =
      [⟨Endpoint.movie, "Heat", none⟩] ∧
    ∀ q ∈ (search_with_title "Heat" none false [] [0]).1, q.endpoint ≠ Endpoint.tv := by
  refine ⟨by norm_num [search_with_title, foldBest], by norm_num [search_with_title], ?_⟩
  intro q hq
  have : q = ⟨Endpoint.movie, "Heat", none⟩ := by
    have h : (search_with_title "Heat" none false [] [0]).1 =
        [⟨Endpoint.movie, "Heat", none⟩] := by norm_num [search_with_title]
    rw [h] at hq
    simpa using hq
  rw [this]
  simp

/-- **C6 amended.**  The first endpoint queried is the series endpoint for
series-leaning input and the movie endpoint otherwise, with the same title
and year passed to every query; for series-leaning input the movie
endpoint is additionally queried exactly when the series search's best
confidence is below 0.5 — but for movie-leaning input the series endpoint
is never queried, whatever the confidence. -/
theorem C6_endpoint_order (title : String) (year : Option Int) (is_series : Bool)
    (tvConfidences movieConfidences : List ℚ) :
    (is_series = true →
      (search_with_title title year is_series tvConfidences movieConfidences).1 =
        if foldBest 0 tvConfidences < 1/2 then
          [⟨Endpoint.tv, title, year⟩, ⟨Endpoint.movie, title, year⟩]
        else
          [⟨Endpoint.tv, title, year⟩]) ∧
    (is_series = false →
      (search_with_title title year is_series tvConfidences movieConfidences).1 =
        [⟨Endpoint.movie, title, year⟩]) ∧
    (∀ q ∈ (search_with_title title year is_series tvConfidences movieConfidences).1,
      q.title = title ∧ q.year = year) := by
  have hfalse : is_series = false →
      (search_with_title title year is_series tvConfidences movieConfidences).1 =
        [⟨Endpoint.movie, title, year⟩] := by
    rintro rfl
    simp [search_with_title]
  have htrue : is_series = true →
      (search_with_title title year is_series tvConfidences movieConfidences).1 =
        if foldBest 0 tvConfidences < 1/2 then
          [⟨Endpoint.tv, title, year⟩, ⟨Endpoint.movie, title, year⟩]
        else
          [⟨Endpoint.tv, title, year⟩] := by
    rintro rfl
    simp only [search_with_title]
    split_ifs with h h' h' <;> simp_all
    linarith
  refine ⟨htrue, hfalse, ?_⟩
  intro q hq
  cases hs : is_series
  · rw [hfalse hs] at hq
    simp at hq
    simp [hq]
  · rw [htrue hs] at hq
    split_ifs at hq
    · simp at hq
      rcases hq with rfl | rfl <;> exact ⟨rfl, rfl⟩
    · simp at hq
      rw [hq]
      exact ⟨rfl, rfl⟩

/-- Witness for C6 amended: a series-leaning input with a confident TV
match (confidence 1) queries only the TV endpoint. -/
theorem C6_endpoint_order_witness :
    (search_with_title "Dark" (some 2017) true [1] []).1 =
      [⟨Endpoint.tv, "Dark", some 2017⟩] := by
  have h := (C6_endpoint_order "Dark" (some 2017) true [1] []).1 rfl
  rw [h]
  norm_num [foldBest]

/-! ## `database.py` — processed-file ledger and stability tracking -/

/-- A `processed_files` row, restricted to the columns
`Database.is_file_processed` consults. -/
structure LedgerRow where
  remote : String
  original_path : String
  status : String
  deriving DecidableEq, Repr

/-- `Database.is_file_processed` (`database.py` lines 198-205): a row for
`(remote, path)` with status `'success'` or `'skipped'` exists. -/
def is_file_processed (ledger : List LedgerRow) (remote path : String) : Bool :=
  ledger.any fun r =>
    r.remote = remote && r.original_path = path &&
      (r.status = "success" || r.status = "skipped")

/-- A `file_stability` row; time stamps are `Nat` ticks standing for the
ISO strings the source stores (`last_checked` is written but never read
by the stability check, so it is omitted). -/
structure StabRow where
  remote : String
  path : String
  file_size : Nat
  first_seen : Nat
  last_size_change : Nat
  deriving DecidableEq, Repr

/-- The dict `Database.update_file_stability` returns. -/
structure StabilityInfo where
  is_new : Bool
  is_stable : Bool
  first_seen : Nat
  last_size_change : Nat
  deriving DecidableEq, Repr

/-- The `SELECT ... WHERE remote = ? AND path = ?` lookup on
`file_stability`. -/
def lookupStab (st : List StabRow) (remote path : String) : Option StabRow :=
  st.find? fun r => r.remote = remote && r.path = path

/-- `Database.update_file_stability` (`database.py` lines 99-157):
insert a fresh row for an unseen `(remote, path)` (reported
`is_new`, not stable); on a size change reset `last_size_change` to `now`;
otherwise leave the recorded change time.  Returns the info dict and the
updated table. -/
def update_file_stability (st : List StabRow) (remote path : String)
    (file_size now : Nat) : StabilityInfo × List StabRow :=
  match lookupStab st remote path with
  | none =>
    (⟨true, false, now, now⟩, st ++ [⟨remote, path, file_size, now, now⟩])
  | some row =>
    if row.file_size ≠ file_size then
      (⟨false, false, row.first_seen, now⟩,
        st.map fun r =>
          if r.remote = remote && r.path = path then
            { r with file_size := file_size, last_size_change := now }
          else r)
    else
      (⟨false, false, row.first_seen, row.last_size_change⟩, st)

/-- `Scanner._check_stability` (`scanner.py` lines 141-167): never stable
when the file is new to tracking; otherwise stable iff the recorded size
has been unchanged for at least `stability_check_seconds`. -/
def check_stability (stability_check_seconds now : Nat) (info : StabilityInfo) : Bool :=
  if info.is_new then false
  else now - info.last_size_change ≥ stability_check_seconds

/-! ## `scanner.py` — `Scanner.scan_remote` and `get_stable_files` -/

/-- A listing entry from the file-transfer collaborator. -/
structure RemoteFile where
  path : String
  name : String
  size : Nat
  isDir : Bool
  deriving DecidableEq, Repr

/-- A `ScannedFile` produced by the scanner. -/
structure ScannedFile where
  remote : String
  path : String
  name : String
  size : Nat
  is_stable : Bool
  is_processed : Bool
  deriving DecidableEq, Repr

/-- `Path(filename).suffix.lower()`: the final extension, lowercased
(empty when there is no dot or only a leading dot). -/
def fileSuffix (name : String) : String :=
  let rev := name.data.reverse
  let ext := rev.takeWhile (· ≠ '.')
  if ext.length = rev.length ∨ ext.length + 1 = rev.length then ""
  else String.mk (lowerStr ('.' :: ext.reverse))

/-- `Scanner._is_video_file` (`scanner.py` lines 136-139). -/
def is_video_file (video_extensions : List String) (filename : String) : Bool :=
  video_extensions.contains (fileSuffix filename)

/-- The loop body of `Scanner.scan_remote` (`scanner.py` lines 72-101):
skip directories, non-video files, and already-processed paths; update
stability tracking and compute stability for the rest, threading the
stability table through the scan. -/
def scan_remote_files (exts : List String) (ledger : List LedgerRow) (remote : String)
    (period now : Nat) : List RemoteFile → List StabRow → List ScannedFile
  | [], _ => []
  | f :: fs, st =>
    if f.isDir then scan_remote_files exts ledger remote period now fs st
    else if !is_video_file exts f.name then
      scan_remote_files exts ledger remote period now fs st
    else if is_file_processed ledger remote f.path then
      scan_remote_files exts ledger remote period now fs st
    else
      let upd := update_file_stability st remote f.path f.size now
      ⟨remote, f.path, f.name, f.size, check_stability period now upd.1, false⟩ ::
        scan_remote_files exts ledger remote period now fs upd.2

/-- `Scanner.get_stable_files` (`scanner.py` lines 126-134) restricted to
one remote: scan, then keep only stable, unprocessed files. -/
def get_stable_files (exts : List String) (ledger : List LedgerRow) (remote : String)
    (period now : Nat) (files : List RemoteFile) (st : List StabRow) : List ScannedFile :=
  (scan_remote_files exts ledger remote period now files st).filter
    fun f => f.is_stable && !f.is_processed

/-- **Counterexample to C5 as stated.**  Ledger rows with the terminal
statuses `'failed'` and `'duplicate_deleted'` do not stop the scan from
offering the path again: with such rows present, `is_file_processed` is
false and the scan re-offers both files. -/
theorem C5_counterexample :
    is_file_processed [⟨"src", "a.mkv", "failed"⟩] "src" "a.mkv" = false ∧
    is_file_processed [⟨"src", "b.mkv", "duplicate_deleted"⟩] "src" "b.mkv" = false ∧
    scan_remote_files [".mkv"] [⟨"src", "a.mkv", "failed"⟩] "src" 120 0
        [⟨"a.mkv", "a.mkv", 100, false⟩] [] =
      [⟨"src", "a.mkv", "a.mkv", 100, false, false⟩] ∧
    scan_remote_files [".mkv"] [⟨"src", "b.mkv", "duplicate_deleted"⟩] "src" 120 0
        [⟨"b.mkv", "b.mkv", 100, false⟩] [] =
      [⟨"src", "b.mkv", "b.mkv", 100, false, false⟩] := by
  refine ⟨by decide, by decide, ?_, ?_⟩ <;> decide

/-- **C5 amended.**  Only the statuses `'success'` and `'skipped'` make the
scan boundary a no-op: a path whose ledger row carries one of those two
statuses is never offered again, and conversely every non-directory video
file without such a row is offered. -/
theorem C5_scan_boundary (exts : List String) (ledger : List LedgerRow)
    (remote : String) (period now : Nat) (files : List RemoteFile) (st : List StabRow) :
    (∀ f ∈ scan_remote_files exts ledger remote period now files st,
      ∀ r ∈ ledger, r.remote = remote → r.original_path = f.path →
        r.status ≠ "success" ∧ r.status ≠ "skipped") ∧
    (∀ f ∈ files, f.isDir = false → is_video_file exts f.name = true →
      is_file_processed ledger remote f.path = false →
      ∃ sf ∈ scan_remote_files exts ledger remote period now files st, sf.path = f.path) := by
  constructor
  · intro f hf
    induction files generalizing st with
    | nil => simp [scan_remote_files] at hf
    | cons g gs ih =>
      by_cases hdir : g.isDir
      · rw [scan_remote_files, if_pos hdir] at hf
        exact ih _ hf
      · rw [scan_remote_files, if_neg hdir] at hf
        by_cases hvid : is_video_file exts g.name
        · rw [if_neg (by simp [hvid])] at hf
          by_cases hproc : is_file_processed ledger remote g.path
          · rw [if_pos hproc] at hf
            exact ih _ hf
          · rw [if_neg hproc] at hf
            rcases List.mem_cons.mp hf with rfl | hf'
            · intro r hr hrem hpath
              have hnone : ¬ (r.remote = remote && r.original_path = g.path &&
                  (r.status = "success" || r.status = "skipped")) = true := by
                intro hc
                exact hproc (List.any_eq_true.mpr ⟨r, hr, hc⟩)
              constructor <;> intro hs <;> exact hnone (by simp [hrem, hpath, hs])
            · exact ih _ hf'
        · rw [if_pos (by simp [hvid])] at hf
          exact ih _ hf
  · intro f hf hdir hvid hproc
    induction files generalizing st with
    | nil => cases hf
    | cons g gs ih =>
      rcases List.mem_cons.mp hf with rfl | hf'
      · refine ⟨⟨remote, f.path, f.name, f.size,
          check_stability period now (update_file_stability st remote f.path f.size now).1,
          false⟩, ?_, rfl⟩
        rw [scan_remote_files, if_neg (by simp [hdir]), if_neg (by simp [hvid]),
          if_neg (by simp [hproc])]
        exact List.mem_cons_self _ _
      · by_cases hgdir : g.isDir
        · rw [scan_remote_files, if_pos hgdir]
          exact ih _ hf'
        · by_cases hgvid : is_video_file exts g.name
          · by_cases hgproc : is_file_processed ledger remote g.path
            · rw [scan_remote_files, if_neg hgdir, if_neg (by simp [hgvid]), if_pos hgproc]
              exact ih _ hf'
            · rw [scan_remote_files, if_neg hgdir, if_neg (by simp [hgvid]), if_neg hgproc]
              rcases ih ((update_file_stability st remote g.path g.size now).2) hf'
                with ⟨sf, hsf, hsfpath⟩
              exact ⟨sf, List.mem_cons_of_mem _ hsf, hsfpath⟩
          · rw [scan_remote_files, if_neg hgdir, if_pos (by simp [hgvid])]
            exact ih _ hf'

/-- Witness for C5 amended: a ledger with a `'success'` row for `a.mkv`
blocks it, while `b.mkv` (no such row) is offered. -/
theorem C5_scan_boundary_witness :
    (∀ f ∈ scan_remote_files [".mkv"] [⟨"src", "a.mkv", "success"⟩] "src" 120 0
        [⟨"a.mkv", "a.mkv", 100, false⟩, ⟨"b.mkv", "b.mkv", 50, false⟩] [],
      ∀ r ∈ [(⟨"src", "a.mkv", "success"⟩ : LedgerRow)], r.remote = "src" →
        r.original_path = f.path → r.status ≠ "success" ∧ r.status ≠ "skipped") ∧
    (∃ sf ∈ scan_remote_files [".mkv"] [⟨"src", "a.mkv", "success"⟩] "src" 120 0
        [⟨"a.mkv", "a.mkv", 100, false⟩, ⟨"b.mkv", "b.mkv", 50, false⟩] [],
      sf.path = "b.mkv") := by
  constructor
  · exact (C5_scan_boundary [".mkv"] [⟨"src", "a.mkv", "success"⟩] "src" 120 0
      [⟨"a.mkv", "a.mkv", 100, false⟩, ⟨"b.mkv", "b.mkv", 50, false⟩] []).1
  · exact (C5_scan_boundary [".mkv"] [⟨"src", "a.mkv", "success"⟩] "src" 120 0
      [⟨"a.mkv", "a.mkv", 100, false⟩, ⟨"b.mkv", "b.mkv", 50, false⟩] []).2
      ⟨"b.mkv", "b.mkv", 50, false⟩ (by decide) (by decide) (by decide) (by decide)

/-- **C10.** A file with no stability-tracking row is reported not stable
on the scan that first sees it (so `get_stable_files` never offers it
then), and a file is stable only when a row already existed and its
recorded size-change time is at least the stability period in the past. -/
theorem C10_first_scan_never_stable (st : List StabRow) (remote path : String)
    (size now period : Nat) :
    (lookupStab st remote path = none →
      (update_file_stability st remote path size now).1.is_new = true ∧
      check_stability period now (update_file_stability st remote path size now).1 = false) ∧
    (check_stability period now (update_file_stability st remote path size now).1 = true →
      (update_file_stability st remote path size now).1.is_new = false ∧
      ∃ row, lookupStab st remote path = some row ∧
        now - (update_file_stability st remote path size now).1.last_size_change ≥ period) ∧
    (∀ exts ledger (f : RemoteFile), f.path = path →
      lookupStab st remote path = none →
      get_stable_files exts ledger remote period now [f] st = []) := by
  have hfresh : ∀ sz, lookupStab st remote path = none →
      (update_file_stability st remote path sz now).1.is_new = true ∧
      check_stability period now (update_file_stability st remote path sz now).1 = false := by
    intro sz hnone
    simp [update_file_stability, hnone, check_stability]
  refine ⟨hfresh size, ?_, ?_⟩
  · intro hstable
    match hlk : lookupStab st remote path with
    | none =>
      exact absurd hstable (by simp [(hfresh size hlk).2])
    | some row =>
      have hnew : (update_file_stability st remote path size now).1.is_new = false := by
        by_cases hsz : row.file_size ≠ size <;> simp [update_file_stability, hlk, hsz]
      refine ⟨hnew, row, rfl, ?_⟩
      by_cases hsz : row.file_size ≠ size <;>
        · simp [update_file_stability, hlk, hsz, check_stability] at hstable ⊢
          omega
  · intro exts ledger f hfpath hnone
    rw [get_stable_files]
    by_cases hdir : f.isDir
    · rw [scan_remote_files, if_pos hdir]
      rfl
    · by_cases hvid : is_video_file exts f.name
      · by_cases hproc : is_file_processed ledger remote f.path
        · rw [scan_remote_files, if_neg hdir, if_neg (by simp [hvid]), if_pos hproc]
          rfl
        · rw [scan_remote_files, if_neg hdir, if_neg (by simp [hvid]), if_neg hproc, hfpath]
          have hstab := (hfresh f.size hnone).2
          simp [scan_remote_files, hstab]
      · rw [scan_remote_files, if_neg hdir, if_pos (by simp [hvid])]
        rfl

/-! ## `filename_parser.py` — quality extraction -/

/-- `re.search` position scan: does some suffix (that is, some start
position) of the text satisfy the position matcher `p`? -/
def anySuffix (p : List Char → Bool) : List Char → Bool
  | [] => p []
  | c :: rest => p (c :: rest) || anySuffix p rest

/-- Pattern `2160p|4k|uhd`. -/
def qpat2160 (s : List Char) : Bool :=
  containsTok s "2160p" || containsTok s "4k" || containsTok s "uhd"

/-- Pattern `1080p|1080i|fullhd|fhd`. -/
def qpat1080 (s : List Char) : Bool :=
  containsTok s "1080p" || containsTok s "1080i" || containsTok s "fullhd" ||
    containsTok s "fhd"

/-- The `hd(?!ts|tc|cam)` alternative: an occurrence of `hd` not followed
by `ts`, `tc` or `cam`. -/
def hdNoTsTcCam (s : List Char) : Bool :=
  anySuffix (fun t =>
    "hd".data.isPrefixOf t &&
      !("ts".data.isPrefixOf (t.drop 2) || "tc".data.isPrefixOf (t.drop 2) ||
        "cam".data.isPrefixOf (t.drop 2))) s

/-- Pattern `720p|hd(?!ts|tc|cam)`. -/
def qpat720 (s : List Char) : Bool :=
  containsTok s "720p" || hdNoTsTcCam s

/-- Pattern `hdts|hd-ts|hd\.ts|hdtelesync`. -/
def qpatHDTS (s : List Char) : Bool :=
  containsTok s "hdts" || containsTok s "hd-ts" || containsTok s "hd.ts" ||
    containsTok s "hdtelesync"

/-- Pattern `hdtc|hd-tc|hd\.tc|hdtelecine`. -/
def qpatHDTC (s : List Char) : Bool :=
  containsTok s "hdtc" || containsTok s "hd-tc" || containsTok s "hd.tc" ||
    containsTok s "hdtelecine"

/-- Pattern `cam(?:rip)?|hdcam` (the optional `rip` suffix and the `hdcam`
alternative both reduce to an occurrence of `cam` for `re.search`). -/
def qpatCAM (s : List Char) : Bool :=
  containsTok s "cam" || containsTok s "hdcam"

/-- Pattern `dvdscr|dvd-scr|screener`. -/
def qpatDVDScr (s : List Char) : Bool :=
  containsTok s "dvdscr" || containsTok s "dvd-scr" || containsTok s "screener"

/-- Pattern `dvdrip|dvd-rip|dvd`. -/
def qpatDVDRip (s : List Char) : Bool :=
  containsTok s "dvdrip" || containsTok s "dvd-rip" || containsTok s "dvd"

/-- Pattern `bluray|blu-ray|bdrip|brrip`. -/
def qpatBluRay (s : List Char) : Bool :=
  containsTok s "bluray" || containsTok s "blu-ray" || containsTok s "bdrip" ||
    containsTok s "brrip"

/-- Pattern `webrip|web-rip`. -/
def qpatWebRip (s : List Char) : Bool :=
  containsTok s "webrip" || containsTok s "web-rip"

/-- Pattern `webdl|web-dl|web\.dl`. -/
def qpatWebDL (s : List Char) : Bool :=
  containsTok s "webdl" || containsTok s "web-dl" || containsTok s "web.dl"

/-- `FilenameParser.QUALITY_PATTERNS` (`filename_parser.py` lines 40-52),
in source order with the source's fixed labels. -/
def QUALITY_PATTERNS : List ((List Char → Bool) × String) :=
  [(qpat2160, "2160p"), (qpat1080, "1080p"), (qpat720, "720p"),
   (qpatHDTS, "HDTS"), (qpatHDTC, "HDTC"), (qpatCAM, "CAM"),
   (qpatDVDScr, "DVDScr"), (qpatDVDRip, "DVDRip"), (qpatBluRay, "1080p"),
   (qpatWebRip, "720p"), (qpatWebDL, "1080p")]

/-- `FilenameParser._extract_quality` (`filename_parser.py` lines
152-162): lowercase the name, return the label of the first pattern that
matches, else `"Unknown"`. -/
def extract_quality (name : String) : String :=
  let lower := lowerStr name.data
  match QUALITY_PATTERNS.findSome? (fun pq => if pq.1 lower then some pq.2 else none) with
  | some q => q
  | none => "Unknown"

/-- **C4.** The ordered quality rules are evaluated top-to-bottom with the
first match winning: each token class yields its fixed label when no
earlier pattern matches, and a filename matching no pattern yields
`"Unknown"`. -/
theorem C4_quality_first_match (name : String) :
    (qpat2160 (lowerStr name.data) = true → extract_quality name = "2160p") ∧
    (qpat2160 (lowerStr name.data) = false → qpat1080 (lowerStr name.data) = true →
      extract_quality name = "1080p") ∧
    (qpat2160 (lowerStr name.data) = false → qpat1080 (lowerStr name.data) = false →
      qpat720 (lowerStr name.data) = true → extract_quality name = "720p") ∧
    (qpat2160 (lowerStr name.data) = false → qpat1080 (lowerStr name.data) = false →
      qpat720 (lowerStr name.data) = false → qpatHDTS (lowerStr name.data) = true →
      extract_quality name = "HDTS") ∧
    (qpat2160 (lowerStr name.data) = false → qpat1080 (lowerStr name.data) = false →
      qpat720 (lowerStr name.data) = false → qpatHDTS (lowerStr name.data) = false →
      qpatHDTC (lowerStr name.data) = true → extract_quality name = "HDTC") ∧
    (qpat2160 (lowerStr name.data) = false → qpat1080 (lowerStr name.data) = false →
      qpat720 (lowerStr name.data) = false → qpatHDTS (lowerStr name.data) = false →
      qpatHDTC (lowerStr name.data) = false → qpatCAM (lowerStr name.data) = true →
      extract_quality name = "CAM") ∧
    (qpat2160 (lowerStr name.data) = false → qpat1080 (lowerStr name.data) = false →
      qpat720 (lowerStr name.data) = false → qpatHDTS (lowerStr name.data) = false →
      qpatHDTC (lowerStr name.data) = false → qpatCAM (lowerStr name.data) = false →
      qpatDVDScr (lowerStr name.data) = true → extract_quality name = "DVDScr") ∧
    (qpat2160 (lowerStr name.data) = false → qpat1080 (lowerStr name.data) = false →
      qpat720 (lowerStr name.data) = false → qpatHDTS (lowerStr name.data) = false →
      qpatHDTC (lowerStr name.data) = false → qpatCAM (lowerStr name.data) = false →
      qpatDVDScr (lowerStr name.data) = false → qpatDVDRip (lowerStr name.data) = true →
      extract_quality name = "DVDRip") ∧
    (qpat2160 (lowerStr name.data) = false → qpat1080 (lowerStr name.data) = false →
      qpat720 (lowerStr name.data) = false → qpatHDTS (lowerStr name.data) = false →
      qpatHDTC (lowerStr name.data) = false → qpatCAM (lowerStr name.data) = false →
      qpatDVDScr (lowerStr name.data) = false → qpatDVDRip (lowerStr name.data) = false →
      qpatBluRay (lowerStr name.data) = true → extract_quality name = "1080p") ∧
    (qpat2160 (lowerStr name.data) = false → qpat1080 (lowerStr name.data) = false →
      qpat720 (lowerStr name.data) = false → qpatHDTS (lowerStr name.data) = false →
      qpatHDTC (lowerStr name.data) = false → qpatCAM (lowerStr name.data) = false →
      qpatDVDScr (lowerStr name.data) = false → qpatDVDRip (lowerStr name.data) = false →
      qpatBluRay (lowerStr name.data) = false → qpatWebRip (lowerStr name.data) = true →
      extract_quality name = "720p") ∧
    (qpat2160 (lowerStr name.data) = false → qpat1080 (lowerStr name.data) = false →
      qpat720 (lowerStr name.data) = false → qpatHDTS (lowerStr name.data) = false →
      qpatHDTC (lowerStr name.data) = false → qpatCAM (lowerStr name.data) = false →
      qpatDVDScr (lowerStr name.data) = false → qpatDVDRip (lowerStr name.data) = false →
      qpatBluRay (lowerStr name.data) = false → qpatWebRip (lowerStr name.data) = false →
      qpatWebDL (lowerStr name.data) = true → extract_quality name = "1080p") ∧
    (qpat2160 (lowerStr name.data) = false → qpat1080 (lowerStr name.data) = false →
      qpat720 (lowerStr name.data) = false → qpatHDTS (lowerStr name.data) = false →
      qpatHDTC (lowerStr name.data) = false → qpatCAM (lowerStr name.data) = false →
      qpatDVDScr (lowerStr name.data) = false → qpatDVDRip (lowerStr name.data) = false →
      qpatBluRay (lowerStr name.data) = false → qpatWebRip (lowerStr name.data) = false →
      qpatWebDL (lowerStr name.data) = false → extract_quality name = "Unknown") := by
  refine ⟨?_, ?_, ?_, ?_, ?_, ?_, ?_, ?_, ?_, ?_, ?_, ?_⟩ <;>
    · intros
      simp [extract_quality, QUALITY_PATTERNS, List.findSome?, *]

/-- Witness for C4: the spec's own scenario filename
`MAA.2025.1080p.Hindi.WEB-DL.mkv` → `"1080p"` via the second rule. -/
theorem C4_quality_first_match_witness :
    extract_quality "MAA.2025.1080p.Hindi.WEB-DL.mkv" = "1080p" :=
  (C4_quality_first_match "MAA.2025.1080p.Hindi.WEB-DL.mkv").2.1
    (by decide) (by decide)

/-! ## `filename_parser.py` — season/episode extraction -/

/-- Numeric value of a digit string. -/
def digitsVal (l : List Char) : Nat :=
  l.foldl (fun a c => a * 10 + (c.toNat - 48)) 0

/-- Take exactly `n` digits, returning them and the rest. -/
def takeExactDigits : Nat → List Char → Option (List Char × List Char)
  | 0, s => some ([], s)
  | _ + 1, [] => none
  | n + 1, c :: rest =>
    if c.isDigit then (takeExactDigits n rest).map (fun p => (c :: p.1, p.2)) else none

/-- Greedy `\d{1,3}` where the following regex part is optional or absent:
take up to three leading digits (at least one). -/
def takeUpTo3Digits (s : List Char) : Option (Nat × List Char) :=
  let run := s.takeWhile Char.isDigit
  if run.length = 0 then none
  else
    let ds := run.take 3
    some (digitsVal ds, s.drop ds.length)

/-- `\d{1,3}` followed by a negative lookahead `(?!\d)` (or by a part no
digit can satisfy): the whole leading digit run must have length 1-3. -/
def digitRun13 (s : List Char) : Option (Nat × List Char) :=
  let run := s.takeWhile Char.isDigit
  if 1 ≤ run.length ∧ run.length ≤ 3 then some (digitsVal run, s.drop run.length)
  else none

/-- `re.search` scan: try the position matcher at every start position,
leftmost success wins. -/
def scanFor {α : Type} (p : List Char → Option α) : List Char → Option α
  | [] => p []
  | c :: rest =>
    match p (c :: rest) with
    | some v => some v
    | none => scanFor p rest

/-- The continuation of pattern `[Ss](\d{1,2})[Ee](\d{1,3})(?:[Ee-](\d{1,3}))?`
after the `[Ss]`, with the season digit count fixed to `n`
(`filename_parser.py` line 172). -/
def p1AfterSeason (n : Nat) (s : List Char) : Option (Nat × Nat × Option Nat) := do
  let (sd, r1) ← takeExactDigits n s
  match r1 with
  | e :: r2 =>
    if e = 'E' ∨ e = 'e' then do
      let (ep, r3) ← takeUpTo3Digits r2
      match r3 with
      | d :: r4 =>
        if d = 'E' ∨ d = 'e' ∨ d = '-' then
          match takeUpTo3Digits r4 with
          | some (ep2, _) => some (digitsVal sd, ep, some ep2)
          | none => some (digitsVal sd, ep, none)
        else some (digitsVal sd, ep, none)
      | [] => some (digitsVal sd, ep, none)
    else none
  | [] => none

/-- Position matcher for `[Ss](\d{1,2})[Ee](\d{1,3})(?:[Ee-](\d{1,3}))?`:
an `S`/`s`, then a greedy 1-2 digit season (two digits tried first), `E`/`e`,
a greedy 1-3 digit episode, optionally `[Ee-]` and a second episode. -/
def p1At : List Char → Option (Nat × Nat × Option Nat)
  | c :: rest =>
    if c = 'S' ∨ c = 's' then
      match p1AfterSeason 2 rest with
      | some v => some v
      | none => p1AfterSeason 1 rest
    else none
  | [] => none

/-- Python `\s` whitespace class. -/
def isSpaceCh (c : Char) : Bool :=
  c = ' ' ∨ c = '\t' ∨ c = '\n' ∨ c = '\r' ∨ c = '\x0b' ∨ c = '\x0c'

/-- `\s*`. -/
def skipSpaces (s : List Char) : List Char := s.dropWhile isSpaceCh

/-- Case-insensitive literal match (for the `re.IGNORECASE` pattern),
returning the rest. -/
def expectCI (pat : String) (s : List Char) : Option (List Char) :=
  let n := pat.data.length
  if lowerStr (s.take n) = pat.data then some (s.drop n) else none

/-- Continuation of `[Ss]eason\s*(\d{1,2})\s*[Ee]pisode\s*(\d{1,3})` after
the season digits count is fixed to `n` (`filename_parser.py` line 180). -/
def p2AfterSeason (n : Nat) (s : List Char) : Option (Nat × Nat) := do
  let (sd, r1) ← takeExactDigits n s
  let r2 := skipSpaces r1
  let r3 ← expectCI "episode" r2
  let r4 := skipSpaces r3
  let (ep, _) ← takeUpTo3Digits r4
  some (digitsVal sd, ep)

/-- Position matcher for `[Ss]eason\s*(\d{1,2})\s*[Ee]pisode\s*(\d{1,3})`
with `re.IGNORECASE`. -/
def p2At (s : List Char) : Option (Nat × Nat) :=
  match expectCI "season" s with
  | none => none
  | some r1 =>
    let r2 := skipSpaces r1
    match p2AfterSeason 2 r2 with
    | some v => some v
    | none => p2AfterSeason 1 r2

/-- Continuation of `(\d{1,2})[xX](\d{1,3})` with the season digit count
fixed to `n` (`filename_parser.py` line 185). -/
def p3With (n : Nat) (s : List Char) : Option (Nat × Nat) := do
  let (sd, r1) ← takeExactDigits n s
  match r1 with
  | x :: r2 =>
    if x = 'x' ∨ x = 'X' then
      match takeUpTo3Digits r2 with
      | some (ep, _) => some (digitsVal sd, ep)
      | none => none
    else none
  | [] => none

/-- Position matcher for `(\d{1,2})[xX](\d{1,3})`. -/
def p3At (s : List Char) : Option (Nat × Nat) :=
  match p3With 2 s with
  | some v => some v
  | none => p3With 1 s

/-- After the optional `pisode`: `\.?\s*(\d{1,3})(?!\d)`. -/
def p4Tail (r : List Char) : Option Nat :=
  let r1 := match r with
    | '.' :: t => t
    | _ => r
  let r2 := skipSpaces r1
  (digitRun13 r2).map Prod.fst

/-- Position matcher for `[Ee](?:pisode)?\.?\s*(\d{1,3})(?!\d)`
(`filename_parser.py` line 190); the optional `pisode` is tried greedily
with backtracking. -/
def p4At : List Char → Option Nat
  | c :: rest =>
    if c = 'E' ∨ c = 'e' then
      if "pisode".data.isPrefixOf rest then
        match p4Tail (rest.drop 6) with
        | some e => some e
        | none => p4Tail rest
      else p4Tail rest
    else none
  | [] => none

/-- Position matcher for the anime convention `\s-\s(\d{1,3})\s`
(`filename_parser.py` line 195). -/
def p5At : List Char → Option Nat
  | a :: '-' :: b :: rest =>
    if isSpaceCh a && isSpaceCh b then
      let run := rest.takeWhile Char.isDigit
      if 1 ≤ run.length ∧ run.length ≤ 3 then
        match rest.drop run.length with
        | d :: _ => if isSpaceCh d then some (digitsVal run) else none
        | [] => none
      else none
    else none
  | _ => none

/-- `FilenameParser._extract_season_episode` (`filename_parser.py` lines
164-199): the five patterns in source order, first success wins.  Returns
`(season, episode, episode_end, is_multi_episode)`. -/
def extract_season_episode (name : String) :
    Option Nat × Option Nat × Option Nat × Bool :=
  match scanFor p1At name.data with
  | some (s, e, ee) => (some s, some e, ee, ee.isSome)
  | none =>
    match scanFor p2At name.data with
    | some (s, e) => (some s, some e, none, false)
    | none =>
      match scanFor p3At name.data with
      | some (s, e) => (some s, some e, none, false)
      | none =>
        match scanFor p4At name.data with
        | some e => (some 1, some e, none, false)
        | none =>
          match scanFor p5At name.data with
          | some e => (some 1, some e, none, false)
          | none => (none, none, none, false)

/-- Python truthiness of an optional int (`None` and `0` are falsy). -/
def pyTruthyNat : Option Nat → Bool
  | none => false
  | some n => !(n = 0)

/-- The season expression of `FilenameParser.parse` (`filename_parser.py`
line 137): `season if season else (1 if episode and not season else None)`. -/
def parse_season_field (season episode : Option Nat) : Option Nat :=
  if pyTruthyNat season then season
  else if pyTruthyNat episode && !pyTruthyNat season then some 1
  else none

/-- The `season` field of the `ParsedFilename` built by `parse`. -/
def parse_season (name : String) : Option Nat :=
  parse_season_field (extract_season_episode name).1 (extract_season_episode name).2.1

/-- The `episode` field of the `ParsedFilename` built by `parse`
(`filename_parser.py` line 138 passes it through unchanged). -/
def parse_episode (name : String) : Option Nat :=
  (extract_season_episode name).2.1

/-- **Counterexample to C8 as stated.**  `Show.S00E05.mkv` matches
`S<season>E<episode>` with season 0 and episode 5, but the parsed season
is 1, not 0: `parse` re-derives the season with a Python truthiness test
(`season if season else ...`), and `0` is falsy. -/
theorem C8_counterexample :
    scanFor p1At "Show.S00E05.mkv".data = some (0, 5, none) ∧
    extract_season_episode "Show.S00E05.mkv" = (some 0, some 5, none, false) ∧
    parse_season "Show.S00E05.mkv" = some 1 ∧
    parse_episode "Show.S00E05.mkv" = some 5 ∧
    parse_season "Show.S00E05.mkv" ≠ some 0 := by
  refine ⟨?_, ?_, ?_, ?_, ?_⟩ <;> decide

/-- **C8 amended.**  For a filename matching `S<season>E<episode>` the
parsed episode equals the matched number and the parsed season equals the
matched number unless that number is 0 (then it becomes 1, or null when
the episode is 0 too); with no season/episode pattern both are null; and
an episode extracted by the episode-only patterns gets season 1. -/
theorem C8_season_episode (name : String) :
    (∀ s e ee, scanFor p1At name.data = some (s, e, ee) →
      parse_episode name = some e ∧
      parse_season name =
        (if s ≠ 0 then some s else if e ≠ 0 then some 1 else none)) ∧
    (scanFor p1At name.data = none → scanFor p2At name.data = none →
      scanFor p3At name.data = none → scanFor p4At name.data = none →
      scanFor p5At name.data = none →
      parse_season name = none ∧ parse_episode name = none) ∧
    (scanFor p1At name.data = none → scanFor p2At name.data = none →
      scanFor p3At name.data = none →
      ∀ e, (scanFor p4At name.data = some e ∨
            (scanFor p4At name.data = none ∧ scanFor p5At name.data = some e)) →
        parse_season name = some 1 ∧ parse_episode name = some e) := by
  refine ⟨?_, ?_, ?_⟩
  · intro s e ee h1
    have hx : extract_season_episode name = (some s, some e, ee, ee.isSome) := by
      simp [extract_season_episode, h1]
    constructor
    · simp [parse_episode, hx]
    · by_cases hs : s = 0
      · subst hs
        by_cases he : e = 0
        · subst he
          simp [parse_season, hx, parse_season_field, pyTruthyNat]
        · simp [parse_season, hx, parse_season_field, pyTruthyNat, he]
      · simp [parse_season, hx, parse_season_field, pyTruthyNat, hs]
  · intro h1 h2 h3 h4 h5
    have hx : extract_season_episode name = (none, none, none, false) := by
      simp [extract_season_episode, h1, h2, h3, h4, h5]
    constructor
    · simp [parse_season, hx, parse_season_field, pyTruthyNat]
    · simp [parse_episode, hx]
  · intro h1 h2 h3 e he
    have hx : extract_season_episode name = (some 1, some e, none, false) := by
      rcases he with h4 | ⟨h4, h5⟩
      · simp [extract_season_episode, h1, h2, h3, h4]
      · simp [extract_season_episode, h1, h2, h3, h4, h5]
    constructor
    · simp [parse_season, hx, parse_season_field, pyTruthyNat]
    · simp [parse_episode, hx]

/-- Witness for C10: a file with no prior tracking row, first seen at tick
50, is reported new and not stable. -/
theorem C10_first_scan_never_stable_witness :
    (update_file_stability [] "src" "new.mkv" 100 50).1.is_new = true ∧
    check_stability 120 50 (update_file_stability [] "src" "new.mkv" 100 50).1 = false :=
  (C10_first_scan_never_stable [] "src" "new.mkv" 100 50 120).1 rfl

/-- Witness for C8 amended: the spec's scenario
`Squid.Game.S02E01.720p.Korean.WEB-DL.mkv` → season 2, episode 1. -/
theorem C8_season_episode_witness :
    parse_episode "Squid.Game.S02E01.720p.Korean.WEB-DL.mkv" = some 1 ∧
    parse_season "Squid.Game.S02E01.720p.Korean.WEB-DL.mkv" = some 2 := by
  have h := (C8_season_episode "Squid.Game.S02E01.720p.Korean.WEB-DL.mkv").1
    2 1 none (by decide)
  exact ⟨h.1, by simpa using h.2⟩

end MediaOrganizer
